import Mathlib

/-!
Shallow embedding of the Backpack-Monitor-Bot alerting core (src/monitor.py,
src/telegram_controller.py).

Python `Decimal` values are modelled as `ℚ` (Decimal arithmetic on the values
involved is exact; the `float(...)` conversions the code performs right before
its comparisons are modelled as the identity on the underlying rational).
Each monitor's mutable attributes become a structure; the bodies of the
polling callbacks (`check_price_spread`, `check_volatility`,
`check_price_target`, `check_iv`) and of one iteration of the renotify loops
(`_continuous_alert`) become pure state-transition functions.  Network fetches
are modelled as `Option ℚ` inputs (`none` = fetch failed / malformed payload).
-/

namespace BackpackMonitor

/-- Python `min` over a nonempty list, written as head plus fold over the tail. -/
def minOf (x : ℚ) (xs : List ℚ) : ℚ := xs.foldl min x

/-- Python `max` over a nonempty list, written as head plus fold over the tail. -/
def maxOf (x : ℚ) (xs : List ℚ) : ℚ := xs.foldl max x

/-- The window filter `[(ts, v) for ts, v in hist if now - ts <= window]`
used by `calculate_volatility` (monitor.py:481) and `calculate_iv_volatility`
(monitor.py:1479). -/
def windowPoints (now window : ℚ) (hist : List (ℚ × ℚ)) : List (ℚ × ℚ) :=
  hist.filter (fun q => decide (now - q.1 ≤ window))

/-- The retention prune `[(ts, v) for ts, v in hist if ts > now - window * 2]`
used after each push (monitor.py:516-518, 604-607, 1524-1526, 1613-1615). -/
def pruneHistory (now window : ℚ) (hist : List (ℚ × ℚ)) : List (ℚ × ℚ) :=
  hist.filter (fun q => decide (now - window * 2 < q.1))

/-- Outcome of one iteration of a `_continuous_alert` loop body. -/
inductive AlertStepResult where
  | exited          -- loop guard false, or condition cleared: loop terminates
  | skippedNoData   -- price fetch failed: sleep and continue
  | skippedNoVol    -- not enough window data: sleep and continue
  | skippedMuted    -- alert_registry reports muted: sleep and continue
  | sent            -- sink send attempted this iteration
  deriving Repr, DecidableEq

/-! ### PriceMonitor (spread monitor, monitor.py:109-425) -/

/-- Mutable state of `PriceMonitor` relevant to alert control.
`price_history` records `(spot, futures, spread_pct)` triples
(monitor.py:266-272); `max_history` is fixed to 100 at construction. -/
structure SpreadMonitor where
  threshold_pct : ℚ
  max_history : Nat
  price_history : List (ℚ × ℚ × ℚ)
  alerting : Bool
  stop_alerting : Bool
  monitoring_paused : Bool
  deriving Repr, DecidableEq

/-- `PriceMonitor.calculate_spread_pct` (monitor.py:242-249). -/
def calculate_spread_pct (spot futures : ℚ) : ℚ :=
  if spot ≤ 0 then 0 else (futures - spot) / spot * 100

/-- The history append + pop(0) step of `check_price_spread` (monitor.py:266-272). -/
def spread_push_history (m : SpreadMonitor) (spot futures spread : ℚ) :
    List (ℚ × ℚ × ℚ) :=
  let h := m.price_history ++ [(spot, futures, spread)]
  if m.max_history < h.length then h.drop 1 else h

/-- `PriceMonitor.check_price_spread` (monitor.py:251-312): one poll tick.
Returns the updated monitor and whether a new `_continuous_alert` task was
started this tick (the function's `return True` path). -/
def check_price_spread (m : SpreadMonitor) (spot futures : Option ℚ) :
    SpreadMonitor × Bool :=
  if m.monitoring_paused then (m, false) else
  match spot, futures with
  | some sp, some fu =>
    let spread := calculate_spread_pct sp fu
    let m1 := { m with price_history := spread_push_history m sp fu spread }
    if m1.threshold_pct ≤ |spread| then
      if !m1.alerting && !m1.stop_alerting then
        ({ m1 with alerting := true, stop_alerting := false }, true)
      else (m1, false)
    else
      if m1.alerting then
        ({ m1 with alerting := false, stop_alerting := false }, false)
      else (m1, false)
  | _, _ => (m, false)

/-- One iteration of `PriceMonitor._continuous_alert` (monitor.py:332-420):
the `while self.alerting and not self.stop_alerting` guard, the price
re-fetch, the recovery check, and the send.  A false guard falls through to
the epilogue `self.alerting = False`. -/
def spread_alert_step (m : SpreadMonitor) (spot futures : Option ℚ) :
    SpreadMonitor × AlertStepResult :=
  if !(m.alerting && !m.stop_alerting) then
    ({ m with alerting := false }, .exited)
  else
    match spot, futures with
    | some sp, some fu =>
      let spread := calculate_spread_pct sp fu
      if |spread| < m.threshold_pct then
        ({ m with alerting := false, stop_alerting := false }, .exited)
      else (m, .sent)
    | _, _ => (m, .skippedNoData)

/-- Number of renotify-loop starts over a sequence of spread poll ticks,
each tick supplied with fetched `(spot, futures)` prices. -/
def spread_run_starts (m : SpreadMonitor) : List (ℚ × ℚ) → Nat
  | [] => 0
  | x :: rest =>
    let r := check_price_spread m (some x.1) (some x.2)
    (if r.2 then 1 else 0) + spread_run_starts r.1 rest

/-! ### PriceVolatilityMonitor (monitor.py:441-727) -/

/-- Mutable state of `PriceVolatilityMonitor` relevant to alert control.
`price_history` stores `(timestamp, price)` pairs (monitor.py:451).
Modelled from the spec: `alert_registry` — the AlertRegistry class itself does
not exist under src/ (only the `None` initialisation and the
`alert_registry.is_muted(alert_id)` call sites appear); per the spec's mute
contract it is rendered as an optional set (list) of muted alert ids. -/
structure VolMonitor where
  time_window_sec : ℚ
  volatility_threshold_pct : ℚ
  price_history : List (ℚ × ℚ)
  alerting : Bool
  stop_alerting : Bool
  monitoring_paused : Bool
  alert_registry : Option (List Nat)
  alert_id : Option Nat
  deriving Repr, DecidableEq

/-- The guard `if self.alert_registry and self.alert_registry.is_muted(self.alert_id)`
(monitor.py:640, 1640): a `None` registry is falsy and short-circuits.
Modelled from the spec: `is_muted` itself (no AlertRegistry class exists under
src/) is membership of the alert id in the registry's muted set. -/
def registry_is_muted (reg : Option (List Nat)) (aid : Option Nat) : Bool :=
  match reg, aid with
  | some ids, some a => ids.contains a
  | some _, none => false
  | none, _ => false

/-- `PriceVolatilityMonitor.calculate_volatility` (monitor.py:466-498):
window filter, then `(min, max, (max-min)/min*100, max-min)` guarded by
`min > 0`; `None` on an empty history or empty window. -/
def calculate_volatility (m : VolMonitor) (now : ℚ) :
    Option (ℚ × ℚ × ℚ × ℚ) :=
  if m.price_history = [] then none else
  match windowPoints now m.time_window_sec m.price_history with
  | [] => none
  | q :: qs =>
    let mn := minOf q.2 (qs.map Prod.snd)
    let mx := maxOf q.2 (qs.map Prod.snd)
    if 0 < mn then some (mn, mx, (mx - mn) / mn * 100, mx - mn) else none

/-- `PriceVolatilityMonitor.check_volatility` (monitor.py:500-557): one poll
tick with the fetched price (`none` = fetch failed).  Appends the sample,
prunes to `2 × time_window`, evaluates, and starts the renotify task only when
`not alerting and not stop_alerting`.  Ticks never clear `alerting` — clearing
lives in the renotify loop.  Returns (state, started-new-renotify-task). -/
def check_volatility (m : VolMonitor) (now : ℚ) (price : Option ℚ) :
    VolMonitor × Bool :=
  if m.monitoring_paused then (m, false) else
  match price with
  | none => (m, false)
  | some p =>
    let h := pruneHistory now m.time_window_sec (m.price_history ++ [(now, p)])
    let m1 := { m with price_history := h }
    match calculate_volatility m1 now with
    | none => (m1, false)
    | some r =>
      if m1.volatility_threshold_pct ≤ r.2.2.1 then
        if m1.monitoring_paused then (m1, false)
        else if !m1.alerting && !m1.stop_alerting then
          ({ m1 with alerting := true, stop_alerting := false }, true)
        else (m1, false)
      else (m1, false)

/-- One iteration of `PriceVolatilityMonitor._continuous_alert`
(monitor.py:589-676): guard, re-fetch, push + prune, recompute volatility,
recovery check, mute check, send. -/
def volatility_alert_step (m : VolMonitor) (now : ℚ) (price : Option ℚ) :
    VolMonitor × AlertStepResult :=
  if !(m.alerting && !m.stop_alerting) then
    ({ m with alerting := false }, .exited)
  else
    match price with
    | none => (m, .skippedNoData)
    | some p =>
      let h := pruneHistory now m.time_window_sec (m.price_history ++ [(now, p)])
      let m1 := { m with price_history := h }
      match calculate_volatility m1 now with
      | none => (m1, .skippedNoVol)
      | some r =>
        if r.2.2.1 < m1.volatility_threshold_pct then
          ({ m1 with alerting := false, stop_alerting := false }, .exited)
        else if registry_is_muted m1.alert_registry m1.alert_id then
          (m1, .skippedMuted)
        else (m1, .sent)

/-- Number of renotify-loop starts over a sequence of volatility poll
ticks, each supplied with a timestamp and a fetched price. -/
def vol_run_starts (m : VolMonitor) : List (ℚ × Option ℚ) → Nat
  | [] => 0
  | x :: rest =>
    let r := check_volatility m x.1 x.2
    (if r.2 then 1 else 0) + vol_run_starts r.1 rest

/-- External events on one `PriceVolatilityMonitor`: its own poll tick, one
iteration of its renotify loop, and the Telegram controller's `/pause` and
`/continue` handlers (telegram_controller.py:113-117, 196-199), which set
`stop_alerting`/`alerting`/`monitoring_paused` exactly as the source does. -/
inductive VolEvent where
  | check (now : ℚ) (price : Option ℚ)
  | renotify (now : ℚ) (price : Option ℚ)
  | pauseCmd
  | continueCmd

/-- Effect of one event on a `PriceVolatilityMonitor`. -/
def vol_apply (m : VolMonitor) : VolEvent → VolMonitor
  | .check now p => (check_volatility m now p).1
  | .renotify now p => (volatility_alert_step m now p).1
  | .pauseCmd => { m with stop_alerting := true, alerting := false,
                          monitoring_paused := true }
  | .continueCmd => { m with monitoring_paused := false, stop_alerting := false }

/-- `PriceVolatilityMonitor.__init__` (monitor.py:444-459): empty history,
all control flags false, `alert_registry = None`, `alert_id = None`. -/
def vol_init (window threshold : ℚ) : VolMonitor :=
  { time_window_sec := window, volatility_threshold_pct := threshold,
    price_history := [], alerting := false, stop_alerting := false,
    monitoring_paused := false, alert_registry := none, alert_id := none }

/-- Run a list of events from a given state. -/
def vol_run (m : VolMonitor) : List VolEvent → VolMonitor
  | [] => m
  | e :: es => vol_run (vol_apply m e) es

/-! ### PriceTargetMonitor (Bound rule, monitor.py:711-1104) -/

/-- The `trigger_reason` string: `""`, `"below_min"`, `"above_max"`,
`"above_target"` (monitor.py:761, 841-852). -/
inductive TriggerReason where
  | empty
  | below_min
  | above_max
  | above_target
  deriving Repr, DecidableEq

/-- The optional bound fields of `PriceTargetMonitorConfig`
(monitor.py:690-702). -/
structure TargetConfig where
  min_price : Option ℚ
  max_price : Option ℚ
  target_price : Option ℚ
  deriving Repr, DecidableEq

/-- Mutable state of `PriceTargetMonitor` relevant to alert control
(monitor.py:755-761). -/
structure TargetMonitor where
  cfg : TargetConfig
  alerting : Bool
  stop_alerting : Bool
  monitoring_paused : Bool
  target_reached : Bool
  trigger_reason : TriggerReason
  deriving Repr, DecidableEq

/-- The trigger cascade of `check_price_target` (monitor.py:835-852):
`if min_price is not None and price < min_price` then `below_min`,
`elif max_price is not None and price > max_price` then `above_max`,
`elif target_price is not None and price >= target_price` then
`above_target`; unconfigured (`None`) bounds are skipped. -/
def eval_trigger (cfg : TargetConfig) (price : ℚ) : TriggerReason :=
  if (match cfg.min_price with | some mn => decide (price < mn) | none => false) then
    .below_min
  else if (match cfg.max_price with | some mx => decide (mx < price) | none => false) then
    .above_max
  else if (match cfg.target_price with | some t => decide (t ≤ price) | none => false) then
    .above_target
  else .empty

/-- `PriceTargetMonitor.check_price_target` (monitor.py:824-947): one poll
tick.  On a trigger with `target_reached` still false it records the reason
and (when `not alerting and not stop_alerting`) starts the renotify task; a
trigger while already reached changes nothing; a non-trigger resets
`target_reached`/`trigger_reason` but does NOT touch `alerting` (clearing
lives in the renotify loop). -/
def check_price_target (m : TargetMonitor) (price : Option ℚ) :
    TargetMonitor × Bool :=
  if m.monitoring_paused then (m, false) else
  match price with
  | none => (m, false)
  | some p =>
    match eval_trigger m.cfg p with
    | .empty => ({ m with target_reached := false, trigger_reason := .empty }, false)
    | r =>
      if !m.target_reached then
        let m1 := { m with target_reached := true, trigger_reason := r }
        if !m1.alerting && !m1.stop_alerting then
          ({ m1 with alerting := true, stop_alerting := false }, true)
        else (m1, false)
      else (m, false)

/-- The clearing check of `PriceTargetMonitor._continuous_alert`
(monitor.py:971-997): the stop condition references the recorded
`trigger_reason` only — `below_min` clears at `price >= min_price`,
`above_max` at `price <= max_price`, `above_target` at
`price < target_price`. -/
def target_should_stop (cfg : TargetConfig) (r : TriggerReason) (price : ℚ) :
    Bool :=
  match r with
  | .below_min =>
    match cfg.min_price with | some mn => decide (mn ≤ price) | none => false
  | .above_max =>
    match cfg.max_price with | some mx => decide (price ≤ mx) | none => false
  | .above_target =>
    match cfg.target_price with | some t => decide (price < t) | none => false
  | .empty => false

/-- One iteration of `PriceTargetMonitor._continuous_alert`
(monitor.py:950-1074): guard, re-fetch, reason-directed recovery check, send. -/
def target_alert_step (m : TargetMonitor) (price : Option ℚ) :
    TargetMonitor × AlertStepResult :=
  if !(m.alerting && !m.stop_alerting) then
    ({ m with alerting := false }, .exited)
  else
    match price with
    | none => (m, .skippedNoData)
    | some p =>
      if target_should_stop m.cfg m.trigger_reason p then
        ({ m with alerting := false, stop_alerting := false,
                  target_reached := false, trigger_reason := .empty }, .exited)
      else (m, .sent)

/-! ### DeribitIVMonitor (monitor.py:1378-1696) -/

/-- Mutable state of `DeribitIVMonitor` relevant to alert control
(monitor.py:1399-1419).  `iv_history` stores `(timestamp, dvol)` pairs.
`alert_registry` is modelled as for `VolMonitor`. -/
structure IVMonitor where
  time_window_sec : ℚ
  iv_volatility_threshold : ℚ
  btc_volatility_threshold_pct : ℚ
  iv_history : List (ℚ × ℚ)
  alerting : Bool
  stop_alerting : Bool
  monitoring_paused : Bool
  alert_registry : Option (List Nat)
  alert_id : Option Nat
  deriving Repr, DecidableEq

/-- `DeribitIVMonitor.calculate_iv_volatility` (monitor.py:1466-1495):
as `calculate_volatility` but requiring at least 2 points in the window
(`if len(window_ivs) < 2: return None`). -/
def calculate_iv_volatility (m : IVMonitor) (now : ℚ) :
    Option (ℚ × ℚ × ℚ) :=
  if m.iv_history = [] then none else
  match windowPoints now m.time_window_sec m.iv_history with
  | [] => none
  | [_] => none
  | q :: qs =>
    let mn := minOf q.2 (qs.map Prod.snd)
    let mx := maxOf q.2 (qs.map Prod.snd)
    if 0 < mn then some (mn, mx, (mx - mn) / mn * 100) else none

/-- `DeribitIVMonitor.check_iv` (monitor.py:1507-1570): one poll tick with
the fetched DVOL value and the linked Binance-BTC monitor's current
volatility percentage (`none` when that query yields no data). -/
def check_iv (m : IVMonitor) (now : ℚ) (iv : Option ℚ) (btcVol : Option ℚ) :
    IVMonitor × Bool :=
  if m.monitoring_paused then (m, false) else
  match iv with
  | none => (m, false)
  | some v =>
    let h := pruneHistory now m.time_window_sec (m.iv_history ++ [(now, v)])
    let m1 := { m with iv_history := h }
    let ivTrig : Bool := match calculate_iv_volatility m1 now with
      | some r => decide (m1.iv_volatility_threshold ≤ r.2.2)
      | none => false
    let btcTrig : Bool := match btcVol with
      | some b => decide (m1.btc_volatility_threshold_pct ≤ b)
      | none => false
    if ivTrig && btcTrig then
      if !m1.alerting && !m1.stop_alerting then
        ({ m1 with alerting := true, stop_alerting := false }, true)
      else (m1, false)
    else
      if m1.alerting then
        ({ m1 with alerting := false, stop_alerting := false }, false)
      else (m1, false)

/-- One iteration of `DeribitIVMonitor._continuous_alert`
(monitor.py:1597-1667): guard, DVOL re-fetch, push + prune, composite
recheck, mute check, send. -/
def iv_alert_step (m : IVMonitor) (now : ℚ) (iv : Option ℚ)
    (btcVol : Option ℚ) : IVMonitor × AlertStepResult :=
  if !(m.alerting && !m.stop_alerting) then
    ({ m with alerting := false }, .exited)
  else
    match iv with
    | none => (m, .skippedNoData)
    | some v =>
      let h := pruneHistory now m.time_window_sec (m.iv_history ++ [(now, v)])
      let m1 := { m with iv_history := h }
      let ivOk : Bool := match calculate_iv_volatility m1 now with
        | some r => decide (m1.iv_volatility_threshold ≤ r.2.2)
        | none => false
      let btcOk : Bool := match btcVol with
        | some b => decide (m1.btc_volatility_threshold_pct ≤ b)
        | none => false
      if !(ivOk && btcOk) then
        ({ m1 with alerting := false, stop_alerting := false }, .exited)
      else if registry_is_muted m1.alert_registry m1.alert_id then
        (m1, .skippedMuted)
      else (m1, .sent)

/-- External events on one `DeribitIVMonitor`: poll tick and renotify-loop
iteration.  The Telegram controller's handlers never reference the IV
monitors (telegram_controller.py:18-44 takes no iv parameter), so no
controller events mutate this state. -/
inductive IVEvent where
  | check (now : ℚ) (iv : Option ℚ) (btcVol : Option ℚ)
  | renotify (now : ℚ) (iv : Option ℚ) (btcVol : Option ℚ)

/-- Effect of one event on a `DeribitIVMonitor`. -/
def iv_apply (m : IVMonitor) : IVEvent → IVMonitor
  | .check now v b => (check_iv m now v b).1
  | .renotify now v b => (iv_alert_step m now v b).1

/-- `DeribitIVMonitor.__init__` (monitor.py:1399-1419): empty history, all
control flags false, `alert_registry = None`, `alert_id = None`. -/
def iv_init (window ivThreshold btcThreshold : ℚ) : IVMonitor :=
  { time_window_sec := window, iv_volatility_threshold := ivThreshold,
    btc_volatility_threshold_pct := btcThreshold, iv_history := [],
    alerting := false, stop_alerting := false, monitoring_paused := false,
    alert_registry := none, alert_id := none }

/-- Run a list of events from a given state. -/
def iv_run (m : IVMonitor) : List IVEvent → IVMonitor
  | [] => m
  | e :: es => iv_run (iv_apply m e) es

/-! ### Helper lemmas -/

theorem mem_pruneHistory {now w : ℚ} {hist : List (ℚ × ℚ)} {q : ℚ × ℚ}
    (h : q ∈ pruneHistory now w hist) : now - q.1 ≤ 2 * w := by
  unfold pruneHistory at h
  rw [List.mem_filter] at h
  have h2 := of_decide_eq_true h.2
  linarith

theorem check_volatility_history (m : VolMonitor) (now p : ℚ)
    (h : m.monitoring_paused = false) :
    (check_volatility m now (some p)).1.price_history =
      pruneHistory now m.time_window_sec (m.price_history ++ [(now, p)]) := by
  simp only [check_volatility, h]
  split <;> (try split) <;> (try split) <;> (try split) <;>
    first
    | rfl
    | simp_all

theorem volatility_alert_step_history (m : VolMonitor) (now p : ℚ)
    (h1 : m.alerting = true) (h2 : m.stop_alerting = false) :
    (volatility_alert_step m now (some p)).1.price_history =
      pruneHistory now m.time_window_sec (m.price_history ++ [(now, p)]) := by
  simp only [volatility_alert_step, h1, h2]
  split <;> (try split) <;> (try split) <;> (try split) <;>
    first
    | rfl
    | simp_all

theorem check_iv_history (m : IVMonitor) (now v : ℚ) (b : Option ℚ)
    (h : m.monitoring_paused = false) :
    (check_iv m now (some v) b).1.iv_history =
      pruneHistory now m.time_window_sec (m.iv_history ++ [(now, v)]) := by
  simp only [check_iv, h]
  split <;> (try split) <;> (try split) <;> (try split) <;>
    first
    | rfl
    | simp_all

theorem iv_alert_step_history (m : IVMonitor) (now v : ℚ) (b : Option ℚ)
    (h1 : m.alerting = true) (h2 : m.stop_alerting = false) :
    (iv_alert_step m now (some v) b).1.iv_history =
      pruneHistory now m.time_window_sec (m.iv_history ++ [(now, v)]) := by
  simp only [iv_alert_step, h1, h2]
  split <;> (try split) <;> (try split) <;> (try split) <;>
    first
    | rfl
    | simp_all

/-! ### Claims -/

/-- C8: a tick that cannot obtain price data is a no-op for state
transitions — `check_price_spread` (monitor.py:256-261) and
`check_volatility` leave the monitor unchanged and start nothing when a
price is missing, and an active spread renotify-loop iteration
(monitor.py:345-348) skips the send and keeps the loop running
(`alerting` stays true) instead of stopping. -/
theorem C8_no_data_tick_noop :
    (∀ (m : SpreadMonitor) (fu : Option ℚ),
        check_price_spread m none fu = (m, false)) ∧
    (∀ (m : SpreadMonitor) (sp : ℚ),
        check_price_spread m (some sp) none = (m, false)) ∧
    (∀ (m : VolMonitor) (now : ℚ),
        check_volatility m now none = (m, false)) ∧
    (∀ (m : SpreadMonitor) (fu : Option ℚ), m.alerting = true →
        m.stop_alerting = false →
        spread_alert_step m none fu = (m, .skippedNoData)) ∧
    (∀ (m : SpreadMonitor) (sp : ℚ), m.alerting = true →
        m.stop_alerting = false →
        spread_alert_step m (some sp) none = (m, .skippedNoData)) := by
  refine ⟨?_, ?_, ?_, ?_, ?_⟩
  · intro m fu; unfold check_price_spread; split <;> rfl
  · intro m sp; unfold check_price_spread; split <;> rfl
  · intro m now; unfold check_volatility; split <;> rfl
  · intro m fu h1 h2; simp [spread_alert_step, h1, h2]
  · intro m sp h1 h2; simp [spread_alert_step, h1, h2]

/-- C8 witness: a concrete firing spread monitor with a failed fetch keeps
its renotify loop alive without sending. -/
theorem C8_witness :
    spread_alert_step
      { threshold_pct := 2, max_history := 100, price_history := [],
        alerting := true, stop_alerting := false, monitoring_paused := false }
      none (some 100) =
      ({ threshold_pct := 2, max_history := 100, price_history := [],
         alerting := true, stop_alerting := false, monitoring_paused := false },
        .skippedNoData) :=
  C8_no_data_tick_noop.2.2.2.1
    { threshold_pct := 2, max_history := 100, price_history := [],
      alerting := true, stop_alerting := false, monitoring_paused := false }
    (some 100) rfl rfl

/-- C4: after every push-and-prune step of the volatility and IV rolling
histories (poll tick or renotify iteration), every retained point satisfies
`now - timestamp ≤ 2 × time_window_sec`. -/
theorem C4_bounded_retention :
    (∀ (m : VolMonitor) (now p : ℚ) (q : ℚ × ℚ), m.monitoring_paused = false →
        q ∈ (check_volatility m now (some p)).1.price_history →
        now - q.1 ≤ 2 * m.time_window_sec) ∧
    (∀ (m : VolMonitor) (now p : ℚ) (q : ℚ × ℚ), m.alerting = true →
        m.stop_alerting = false →
        q ∈ (volatility_alert_step m now (some p)).1.price_history →
        now - q.1 ≤ 2 * m.time_window_sec) ∧
    (∀ (m : IVMonitor) (now v : ℚ) (b : Option ℚ) (q : ℚ × ℚ),
        m.monitoring_paused = false →
        q ∈ (check_iv m now (some v) b).1.iv_history →
        now - q.1 ≤ 2 * m.time_window_sec) ∧
    (∀ (m : IVMonitor) (now v : ℚ) (b : Option ℚ) (q : ℚ × ℚ),
        m.alerting = true → m.stop_alerting = false →
        q ∈ (iv_alert_step m now (some v) b).1.iv_history →
        now - q.1 ≤ 2 * m.time_window_sec) := by
  refine ⟨?_, ?_, ?_, ?_⟩
  · intro m now p q hp hq
    rw [check_volatility_history m now p hp] at hq
    exact mem_pruneHistory hq
  · intro m now p q h1 h2 hq
    rw [volatility_alert_step_history m now p h1 h2] at hq
    exact mem_pruneHistory hq
  · intro m now v b q hp hq
    rw [check_iv_history m now v b hp] at hq
    exact mem_pruneHistory hq
  · intro m now v b q h1 h2 hq
    rw [iv_alert_step_history m now v b h1 h2] at hq
    exact mem_pruneHistory hq

/-- C4 witness: a concrete poll tick of a fresh 60-second volatility monitor
retains only points within 120 seconds of the push. -/
theorem C4_witness :
    (0 : ℚ) - (0 : ℚ) ≤ 2 * 60 ∧ True :=
  ⟨C4_bounded_retention.1 (vol_init 60 1) 0 100 (0, 100) rfl
      (by norm_num [check_volatility, vol_init, calculate_volatility,
        pruneHistory, windowPoints, minOf, maxOf]),
    trivial⟩

/-- C9: the volatility percent-change is `(max - min) / min × 100` and is
produced only when the window minimum is strictly positive; a nonempty window
whose minimum is non-positive yields `None` instead (division guard), for
both `calculate_volatility` and `calculate_iv_volatility`. -/
theorem C9_division_guard :
    (∀ (m : VolMonitor) (now : ℚ) (r : ℚ × ℚ × ℚ × ℚ),
        calculate_volatility m now = some r →
        0 < r.1 ∧ r.2.2.1 = (r.2.1 - r.1) / r.1 * 100) ∧
    (∀ (m : VolMonitor) (now : ℚ) (q : ℚ × ℚ) (qs : List (ℚ × ℚ)),
        windowPoints now m.time_window_sec m.price_history = q :: qs →
        minOf q.2 (qs.map Prod.snd) ≤ 0 →
        calculate_volatility m now = none) ∧
    (∀ (m : IVMonitor) (now : ℚ) (r : ℚ × ℚ × ℚ),
        calculate_iv_volatility m now = some r →
        0 < r.1 ∧ r.2.2 = (r.2.1 - r.1) / r.1 * 100) ∧
    (∀ (m : IVMonitor) (now : ℚ) (q q' : ℚ × ℚ) (qs : List (ℚ × ℚ)),
        windowPoints now m.time_window_sec m.iv_history = q :: q' :: qs →
        minOf q.2 ((q' :: qs).map Prod.snd) ≤ 0 →
        calculate_iv_volatility m now = none) := by
  refine ⟨?_, ?_, ?_, ?_⟩
  · intro m now r h
    unfold calculate_volatility at h
    split at h
    · exact absurd h (by simp)
    · split at h
      · exact absurd h (by simp)
      · dsimp only at h
        split at h
        · obtain ⟨rfl⟩ := Option.some.inj h
          exact ⟨by assumption, rfl⟩
        · exact absurd h (by simp)
  · intro m now q qs hw hmn
    unfold calculate_volatility
    split
    · rfl
    · rw [hw]
      dsimp only
      rw [if_neg (by exact not_lt.mpr hmn)]
  · intro m now r h
    unfold calculate_iv_volatility at h
    split at h
    · exact absurd h (by simp)
    · split at h
      · exact absurd h (by simp)
      · exact absurd h (by simp)
      · dsimp only at h
        split at h
        · obtain ⟨rfl⟩ := Option.some.inj h
          exact ⟨by assumption, rfl⟩
        · exact absurd h (by simp)
  · intro m now q q' qs hw hmn
    unfold calculate_iv_volatility
    split
    · rfl
    · rw [hw]
      dsimp only
      rw [if_neg (by exact not_lt.mpr hmn)]

/-- C9 witness: a window holding prices 100 and 103 yields
`pct = (103 - 100) / 100 × 100 = 3`, and a window whose minimum is 0
yields `None`. -/
theorem C9_witness :
    0 < (100 : ℚ) ∧ (3 : ℚ) = (103 - 100) / 100 * 100 :=
  C9_division_guard.1
    { vol_init 60 1 with price_history := [(0, 100), (1, 103)] } 1
    (100, 103, 3, 3)
    (by
      norm_num [calculate_volatility, vol_init, windowPoints, minOf, maxOf]
      all_goals
        intro h
        exact absurd h (by simp))

/-- C2 counterexample: the claim says the volatility query returns `None`
whenever fewer than 2 samples lie in the window, but
`PriceVolatilityMonitor.calculate_volatility` (monitor.py:466-498) only
requires a nonempty window: with exactly one sample `(t=0, price=100)` in the
window it returns `(100, 100, 0, 0)`, not `None` (only
`DeribitIVMonitor.calculate_iv_volatility` enforces the 2-sample minimum). -/
theorem C2_counterexample :
    (windowPoints 0 60 [((0 : ℚ), (100 : ℚ))]).length = 1 ∧
    calculate_volatility { vol_init 60 1 with price_history := [(0, 100)] } 0 =
      some (100, 100, 0, 0) := by
  constructor
  · norm_num [windowPoints]
  · norm_num [calculate_volatility, vol_init, windowPoints, minOf, maxOf]

/-- C2 (amended): `calculate_iv_volatility` returns `None` whenever fewer
than 2 samples lie within the query window; `calculate_volatility` requires
only one — it returns `None` when zero samples lie within the window, and a
single positive sample yields the degenerate zero-volatility result
`(p, p, 0, 0)` rather than `None`. -/
theorem C2_min_points :
    (∀ (m : IVMonitor) (now : ℚ),
        (windowPoints now m.time_window_sec m.iv_history).length < 2 →
        calculate_iv_volatility m now = none) ∧
    (∀ (m : VolMonitor) (now : ℚ),
        windowPoints now m.time_window_sec m.price_history = [] →
        calculate_volatility m now = none) ∧
    (∀ (m : VolMonitor) (now : ℚ) (q : ℚ × ℚ),
        windowPoints now m.time_window_sec m.price_history = [q] → 0 < q.2 →
        calculate_volatility m now = some (q.2, q.2, 0, 0)) := by
  refine ⟨?_, ?_, ?_⟩
  · intro m now hlen
    unfold calculate_iv_volatility
    split
    · rfl
    · split
      · rfl
      · rfl
      · rename_i hne heq
        rw [heq, List.length_cons] at hlen
        exact absurd (List.length_eq_zero.mp (by omega)) hne
  · intro m now hw
    unfold calculate_volatility
    split
    · rfl
    · split
      · rfl
      · rename_i heq
        rw [hw] at heq
        exact absurd heq (by simp)
  · intro m now q hw hq
    unfold calculate_volatility
    split
    · rename_i he
      rw [he] at hw
      exact absurd hw (by simp [windowPoints])
    · split
      · rename_i heq
        rw [hw] at heq
        exact absurd heq (by simp)
      · rename_i q' qs' heq
        rw [hw] at heq
        injection heq with h1 h2
        subst h1
        subst h2
        dsimp only
        simp only [minOf, maxOf, List.map_nil, List.foldl_nil]
        rw [if_pos hq]
        norm_num

/-- C2 witness for the amended claim: with two points but only one inside the
window, the IV query returns `None`. -/
theorem C2_witness :
    calculate_iv_volatility
      { iv_init 60 3 1 with iv_history := [(0, 50), (100, 55)] } 100 = none :=
  C2_min_points.1 { iv_init 60 3 1 with iv_history := [(0, 50), (100, 55)] }
    100 (by norm_num [windowPoints, iv_init])

/-- C6: the Bound trigger cascade checks `below_min` (`price < min_price`),
then `above_max` (`price > max_price`), then `above_target`
(`price >= target_price`) in that fixed priority order, skipping `None`
bounds; the first match wins and is recorded as the active
`trigger_reason` by `check_price_target`. -/
theorem C6_bound_trigger_priority :
    (∀ (cfg : TargetConfig) (p : ℚ),
      (eval_trigger cfg p = .below_min ↔
        ∃ mn, cfg.min_price = some mn ∧ p < mn) ∧
      (eval_trigger cfg p = .above_max ↔
        (¬∃ mn, cfg.min_price = some mn ∧ p < mn) ∧
        ∃ mx, cfg.max_price = some mx ∧ mx < p) ∧
      (eval_trigger cfg p = .above_target ↔
        (¬∃ mn, cfg.min_price = some mn ∧ p < mn) ∧
        (¬∃ mx, cfg.max_price = some mx ∧ mx < p) ∧
        ∃ t, cfg.target_price = some t ∧ t ≤ p)) ∧
    (∀ (m : TargetMonitor) (p : ℚ), m.monitoring_paused = false →
      m.target_reached = false → eval_trigger m.cfg p ≠ .empty →
      (check_price_target m (some p)).1.trigger_reason = eval_trigger m.cfg p) := by
  constructor
  · intro cfg p
    obtain ⟨omn, omx, ot⟩ := cfg
    rcases omn with _ | mn <;> rcases omx with _ | mx <;> rcases ot with _ | t <;>
      simp only [eval_trigger] <;>
      split_ifs <;>
      simp_all
  · intro m p hp hr hne
    unfold check_price_target
    rw [hp]
    simp only [Bool.false_eq_true, if_false]
    cases he : eval_trigger m.cfg p with
    | empty => exact absurd he hne
    | below_min => rw [hr]; simp only [Bool.not_false, if_pos]; split <;> rfl
    | above_max => rw [hr]; simp only [Bool.not_false, if_pos]; split <;> rfl
    | above_target => rw [hr]; simp only [Bool.not_false, if_pos]; split <;> rfl

/-- C6 witness: with `min_price=90`, `max_price=110`, `target_price=80` and
price 85, both the `below_min` and `above_target` conditions hold; the tick
records `below_min`, the first match in the priority order. -/
theorem C6_witness :
    (check_price_target
      { cfg := ⟨some 90, some 110, some 80⟩, alerting := false,
        stop_alerting := false, monitoring_paused := false,
        target_reached := false, trigger_reason := .empty }
      (some 85)).1.trigger_reason =
      eval_trigger ⟨some 90, some 110, some 80⟩ 85 :=
  C6_bound_trigger_priority.2
    { cfg := ⟨some 90, some 110, some 80⟩, alerting := false,
      stop_alerting := false, monitoring_paused := false,
      target_reached := false, trigger_reason := .empty }
    85 rfl rfl (by decide)

/-- C3: the Bound clearing condition references only the recorded trigger
reason — `below_min` clears exactly when `price >= min_price`, `above_max`
exactly when `price <= max_price`, `above_target` exactly when
`price < target_price`; the other bounds play no role (changing them leaves
the stop decision unchanged), and in the concrete `min=90, max=110` scenario
a rule firing on `below_min` has its renotify loop stop exactly when
`price >= 90`. -/
theorem C3_bound_clear_reason_directed :
    (∀ (cfg : TargetConfig) (p mn : ℚ), cfg.min_price = some mn →
      (target_should_stop cfg .below_min p = true ↔ mn ≤ p)) ∧
    (∀ (cfg : TargetConfig) (p mx : ℚ), cfg.max_price = some mx →
      (target_should_stop cfg .above_max p = true ↔ p ≤ mx)) ∧
    (∀ (cfg : TargetConfig) (p t : ℚ), cfg.target_price = some t →
      (target_should_stop cfg .above_target p = true ↔ p < t)) ∧
    (∀ (cfg cfg' : TargetConfig) (p : ℚ), cfg.min_price = cfg'.min_price →
      target_should_stop cfg .below_min p = target_should_stop cfg' .below_min p) ∧
    (∀ (m : TargetMonitor) (p : ℚ),
      m.cfg = ⟨some 90, some 110, none⟩ → m.trigger_reason = .below_min →
      m.alerting = true → m.stop_alerting = false →
      ((target_alert_step m (some p)).1.alerting = false ↔ 90 ≤ p)) := by
  refine ⟨?_, ?_, ?_, ?_, ?_⟩
  · intro cfg p mn h; simp [target_should_stop, h]
  · intro cfg p mx h; simp [target_should_stop, h]
  · intro cfg p t h; simp [target_should_stop, h]
  · intro cfg cfg' p h; simp [target_should_stop, h]
  · intro m p hcfg hr ha hs
    simp only [target_alert_step, ha, hs, Bool.not_false, Bool.and_true,
      Bool.not_true, Bool.false_eq_true, if_false]
    by_cases hstop : (90 : ℚ) ≤ p
    · rw [if_pos (by simp [target_should_stop, hcfg, hr, hstop])]
      simpa using hstop
    · rw [if_neg (by simp [target_should_stop, hcfg, hr, hstop])]
      simp [ha, hstop]

/-- C3 witness: the `min=90, max=110` scenario of the spec — a rule that
fired on `below_min` does not clear at price 85 and does clear at 115
(115 ≥ 90), i.e. clearing is decided by `price >= min_price` alone. -/
theorem C3_witness :
    (((target_alert_step
        { cfg := ⟨some 90, some 110, none⟩, alerting := true,
          stop_alerting := false, monitoring_paused := false,
          target_reached := true, trigger_reason := .below_min }
        (some 85)).1.alerting = false ↔ (90 : ℚ) ≤ 85) ∧
     ((target_alert_step
        { cfg := ⟨some 90, some 110, none⟩, alerting := true,
          stop_alerting := false, monitoring_paused := false,
          target_reached := true, trigger_reason := .below_min }
        (some 115)).1.alerting = false ↔ (90 : ℚ) ≤ 115)) :=
  ⟨C3_bound_clear_reason_directed.2.2.2.2 _ 85 rfl rfl rfl rfl,
   C3_bound_clear_reason_directed.2.2.2.2 _ 115 rfl rfl rfl rfl⟩

/-- C5: for `spot > 0` the spread is `(futures - spot)/spot × 100`, a
non-paused idle tick starts firing iff `|spread| >= threshold_pct`, and a
firing rule clears on the next tick whenever `|spread| < threshold_pct`. -/
theorem C5_spread_trigger_iff :
    (∀ sp fu : ℚ, 0 < sp →
      calculate_spread_pct sp fu = (fu - sp) / sp * 100) ∧
    (∀ (m : SpreadMonitor) (sp fu : ℚ), m.monitoring_paused = false →
      m.alerting = false → m.stop_alerting = false →
      ((check_price_spread m (some sp) (some fu)).2 = true ↔
        m.threshold_pct ≤ |calculate_spread_pct sp fu|)) ∧
    (∀ (m : SpreadMonitor) (sp fu : ℚ), m.monitoring_paused = false →
      m.alerting = true →
      |calculate_spread_pct sp fu| < m.threshold_pct →
      (check_price_spread m (some sp) (some fu)).1.alerting = false) := by
  refine ⟨?_, ?_, ?_⟩
  · intro sp fu hsp
    unfold calculate_spread_pct
    rw [if_neg (not_le.mpr hsp)]
  · intro m sp fu hp ha hs
    simp only [check_price_spread, hp, Bool.false_eq_true, if_false, ha, hs,
      Bool.not_false, Bool.and_self]
    by_cases ht : m.threshold_pct ≤ |calculate_spread_pct sp fu|
    · rw [if_pos ht]
      simp [ht]
    · rw [if_neg ht]
      simp [ht]
  · intro m sp fu hp ha hlt
    simp only [check_price_spread, hp, Bool.false_eq_true, if_false]
    rw [if_neg (not_le.mpr hlt), if_pos (by simp [ha])]

/-- C5 witness: the spec scenario — `threshold_pct = 2`, spot 100 / futures
103 gives spread 3% and starts firing; from the firing state, spot 100 /
futures 101 gives spread 1% and clears on that tick. -/
theorem C5_witness :
    ((check_price_spread
        { threshold_pct := 2, max_history := 100, price_history := [],
          alerting := false, stop_alerting := false, monitoring_paused := false }
        (some 100) (some 103)).2 = true ↔
      (2 : ℚ) ≤ |calculate_spread_pct 100 103|) ∧
    (check_price_spread
        { threshold_pct := 2, max_history := 100, price_history := [],
          alerting := true, stop_alerting := false, monitoring_paused := false }
        (some 100) (some 101)).1.alerting = false :=
  ⟨C5_spread_trigger_iff.2.1
      { threshold_pct := 2, max_history := 100, price_history := [],
        alerting := false, stop_alerting := false, monitoring_paused := false }
      100 103 rfl rfl rfl,
   C5_spread_trigger_iff.2.2
      { threshold_pct := 2, max_history := 100, price_history := [],
        alerting := true, stop_alerting := false, monitoring_paused := false }
      100 101 rfl rfl (by norm_num [calculate_spread_pct])⟩

/-- C7 counterexample: the claim says that while a rule is muted (paused) its
underlying condition polling continues so recovery can be detected silently.
It is false for the volatility monitor at this concrete input: after the
`/pause` handler runs (telegram_controller.py:113-117 sets
`monitoring_paused = True`), a poll tick with a fresh price sample is a
complete no-op — `check_volatility` returns immediately
(monitor.py:545-547 via the guard at 502-503, and start_monitoring skips the
call at monitor.py:705-707), the sample is discarded and the history stays
empty, so no condition evaluation (and hence no recovery detection)
happens while paused. -/
theorem C7_counterexample :
    check_volatility (vol_apply (vol_init 60 1) .pauseCmd) 10 (some 100) =
      (vol_apply (vol_init 60 1) .pauseCmd, false) ∧
    (check_volatility (vol_apply (vol_init 60 1) .pauseCmd) 10
        (some 100)).1.price_history = [] := by
  constructor <;> rfl

/-- C7 (amended): the `/pause` handler stops the renotify loop within one
`alert_interval` — it sets `stop_alerting` and force-clears `alerting`, so
the very next loop iteration exits without a send; however, for the
volatility monitor it also sets `monitoring_paused`, under which poll ticks
perform no condition evaluation at all (recovery is not detected while
paused, and the firing flag was already force-cleared at pause time);
`/continue` clears `monitoring_paused` and `stop_alerting`, after which
polling and firing resume. -/
theorem C7_pause_stops_sends :
    (∀ m : VolMonitor,
      (vol_apply m .pauseCmd).alerting = false ∧
      (vol_apply m .pauseCmd).stop_alerting = true ∧
      (vol_apply m .pauseCmd).monitoring_paused = true) ∧
    (∀ (m : VolMonitor) (now : ℚ) (p : Option ℚ),
      volatility_alert_step (vol_apply m .pauseCmd) now p =
        (vol_apply m .pauseCmd, .exited)) ∧
    (∀ (m : VolMonitor) (now : ℚ) (p : Option ℚ),
      check_volatility (vol_apply m .pauseCmd) now p =
        (vol_apply m .pauseCmd, false)) ∧
    (∀ m : VolMonitor,
      (vol_apply (vol_apply m .pauseCmd) .continueCmd).monitoring_paused = false ∧
      (vol_apply (vol_apply m .pauseCmd) .continueCmd).stop_alerting = false) := by
  refine ⟨?_, ?_, ?_, ?_⟩
  · intro m; exact ⟨rfl, rfl, rfl⟩
  · intro m now p; cases m; rfl
  · intro m now p; cases m; rfl
  · intro m; exact ⟨rfl, rfl⟩

/-! ### Lemmas for the single-renotify-loop invariant (C1) -/

theorem spread_tick_blocked (m : SpreadMonitor) (sp fu : ℚ)
    (hflag : m.alerting = true ∨ m.stop_alerting = true)
    (htr : m.threshold_pct ≤ |calculate_spread_pct sp fu|) :
    (check_price_spread m (some sp) (some fu)).2 = false ∧
    (check_price_spread m (some sp) (some fu)).1.alerting = m.alerting ∧
    (check_price_spread m (some sp) (some fu)).1.stop_alerting = m.stop_alerting := by
  have hg : ¬((!m.alerting && !m.stop_alerting) = true) := by
    rcases hflag with h | h <;> simp [h]
  unfold check_price_spread
  split
  · exact ⟨rfl, rfl, rfl⟩
  · dsimp only
    split_ifs <;> simp_all

theorem spread_tick_no_start (m : SpreadMonitor) (sp fu : ℚ)
    (hflag : m.alerting = true ∨ m.stop_alerting = true) :
    (check_price_spread m (some sp) (some fu)).2 = false := by
  have hg : ¬((!m.alerting && !m.stop_alerting) = true) := by
    rcases hflag with h | h <;> simp [h]
  unfold check_price_spread
  split
  · rfl
  · dsimp only
    split_ifs <;> simp_all

theorem spread_tick_threshold (m : SpreadMonitor) (sp fu : ℚ) :
    (check_price_spread m (some sp) (some fu)).1.threshold_pct =
      m.threshold_pct := by
  unfold check_price_spread
  split
  · rfl
  · dsimp only
    split_ifs <;> rfl

theorem spread_tick_start_alerting (m : SpreadMonitor) (sp fu : ℚ)
    (h : (check_price_spread m (some sp) (some fu)).2 = true) :
    (check_price_spread m (some sp) (some fu)).1.alerting = true := by
  unfold check_price_spread at h ⊢
  split at h
  · exact absurd h (by simp)
  · dsimp only at h ⊢
    split_ifs at h <;> simp_all

theorem spread_run_starts_zero :
    ∀ (L : List (ℚ × ℚ)) (m : SpreadMonitor),
      m.alerting = true ∨ m.stop_alerting = true →
      (∀ x ∈ L, m.threshold_pct ≤ |calculate_spread_pct x.1 x.2|) →
      spread_run_starts m L = 0 := by
  intro L
  induction L with
  | nil => intro m _ _; rfl
  | cons x rest ih =>
    intro m hflag htr
    obtain ⟨h2, hal, hst⟩ :=
      spread_tick_blocked m x.1 x.2 hflag (htr x (List.mem_cons_self x rest))
    simp only [spread_run_starts]
    rw [h2]
    simp only [Bool.false_eq_true, if_false, Nat.zero_add]
    refine ih _ ?_ ?_
    · rcases hflag with h | h
      · exact Or.inl (hal.trans h)
      · exact Or.inr (hst.trans h)
    · intro y hy
      rw [spread_tick_threshold]
      exact htr y (List.mem_cons_of_mem _ hy)

theorem spread_run_starts_le_one :
    ∀ (L : List (ℚ × ℚ)) (m : SpreadMonitor),
      (∀ x ∈ L, m.threshold_pct ≤ |calculate_spread_pct x.1 x.2|) →
      spread_run_starts m L ≤ 1 := by
  intro L
  induction L with
  | nil => intro m _; exact Nat.zero_le 1
  | cons x rest ih =>
    intro m htr
    simp only [spread_run_starts]
    by_cases hb : (check_price_spread m (some x.1) (some x.2)).2 = true
    · rw [hb]
      simp only [if_true]
      have hrest : spread_run_starts (check_price_spread m (some x.1) (some x.2)).1 rest = 0 := by
        refine spread_run_starts_zero rest _ (Or.inl (spread_tick_start_alerting m x.1 x.2 hb)) ?_
        intro y hy
        rw [spread_tick_threshold]
        exact htr y (List.mem_cons_of_mem _ hy)
      omega
    · rw [Bool.not_eq_true] at hb
      rw [hb]
      simp only [Bool.false_eq_true, if_false, Nat.zero_add]
      refine ih _ ?_
      intro y hy
      rw [spread_tick_threshold]
      exact htr y (List.mem_cons_of_mem _ hy)

theorem vol_tick_blocked (m : VolMonitor) (now : ℚ) (p : Option ℚ)
    (hflag : m.alerting = true ∨ m.stop_alerting = true) :
    (check_volatility m now p).2 = false ∧
    (check_volatility m now p).1.alerting = m.alerting ∧
    (check_volatility m now p).1.stop_alerting = m.stop_alerting := by
  have hg : ¬((!m.alerting && !m.stop_alerting) = true) := by
    rcases hflag with h | h <;> simp [h]
  unfold check_volatility
  split
  · exact ⟨rfl, rfl, rfl⟩
  · split
    · exact ⟨rfl, rfl, rfl⟩
    · dsimp only
      split
      · exact ⟨rfl, rfl, rfl⟩
      · split_ifs <;> simp_all

theorem vol_tick_start_alerting (m : VolMonitor) (now : ℚ) (p : Option ℚ)
    (h : (check_volatility m now p).2 = true) :
    (check_volatility m now p).1.alerting = true := by
  unfold check_volatility at h ⊢
  split at h
  · exact absurd h (by simp)
  · split at h
    · exact absurd h (by simp)
    · dsimp only at h ⊢
      split at h
      · exact absurd h (by simp)
      · split_ifs at h <;> simp_all

theorem vol_run_starts_zero :
    ∀ (L : List (ℚ × Option ℚ)) (m : VolMonitor),
      m.alerting = true ∨ m.stop_alerting = true →
      vol_run_starts m L = 0 := by
  intro L
  induction L with
  | nil => intro m _; rfl
  | cons x rest ih =>
    intro m hflag
    obtain ⟨h2, hal, hst⟩ := vol_tick_blocked m x.1 x.2 hflag
    simp only [vol_run_starts]
    rw [h2]
    simp only [Bool.false_eq_true, if_false, Nat.zero_add]
    refine ih _ ?_
    rcases hflag with h | h
    · exact Or.inl (hal.trans h)
    · exact Or.inr (hst.trans h)

theorem vol_run_starts_le_one :
    ∀ (L : List (ℚ × Option ℚ)) (m : VolMonitor), vol_run_starts m L ≤ 1 := by
  intro L
  induction L with
  | nil => intro m; exact Nat.zero_le 1
  | cons x rest ih =>
    intro m
    simp only [vol_run_starts]
    by_cases hb : (check_volatility m x.1 x.2).2 = true
    · rw [hb]
      simp only [if_true]
      have hrest := vol_run_starts_zero rest _
        (Or.inl (vol_tick_start_alerting m x.1 x.2 hb))
      omega
    · rw [Bool.not_eq_true] at hb
      rw [hb]
      simp only [Bool.false_eq_true, if_false, Nat.zero_add]
      exact ih _

/-- C1: per rule, at most one renotify loop is active at a time — a
triggered tick starts a new `_continuous_alert` task only when `alerting`
and `stop_alerting` are both false (a tick in any other flag state starts
nothing), a re-entrant trigger while already firing is a no-op on the flags,
and over any contiguous run of triggered spread ticks — and over ANY run of
volatility ticks (volatility ticks never clear the flag) — at most one
renotify task is started. -/
theorem C1_single_renotify_loop :
    (∀ (m : SpreadMonitor) (sp fu : ℚ),
        m.alerting = true ∨ m.stop_alerting = true →
        (check_price_spread m (some sp) (some fu)).2 = false) ∧
    (∀ (m : SpreadMonitor) (sp fu : ℚ), m.alerting = true →
        m.threshold_pct ≤ |calculate_spread_pct sp fu| →
        (check_price_spread m (some sp) (some fu)).2 = false ∧
        (check_price_spread m (some sp) (some fu)).1.alerting = true ∧
        (check_price_spread m (some sp) (some fu)).1.stop_alerting =
          m.stop_alerting) ∧
    (∀ (m : SpreadMonitor) (L : List (ℚ × ℚ)),
        (∀ x ∈ L, m.threshold_pct ≤ |calculate_spread_pct x.1 x.2|) →
        spread_run_starts m L ≤ 1) ∧
    (∀ (m : VolMonitor) (L : List (ℚ × Option ℚ)), vol_run_starts m L ≤ 1) := by
  refine ⟨?_, ?_, ?_, ?_⟩
  · intro m sp fu hflag
    exact spread_tick_no_start m sp fu hflag
  · intro m sp fu ha htr
    obtain ⟨h2, hal, hst⟩ := spread_tick_blocked m sp fu (Or.inl ha) htr
    exact ⟨h2, hal.trans ha, hst⟩
  · intro m L htr
    exact spread_run_starts_le_one L m htr
  · intro m L
    exact vol_run_starts_le_one L m

/-- C1 witness: three consecutive triggered ticks (spread 3% against
threshold 2%) of a fresh spread monitor start at most one renotify loop. -/
theorem C1_witness :
    spread_run_starts
      { threshold_pct := 2, max_history := 100, price_history := [],
        alerting := false, stop_alerting := false, monitoring_paused := false }
      [(100, 103), (100, 103), (100, 103)] ≤ 1 :=
  C1_single_renotify_loop.2.2.1
    { threshold_pct := 2, max_history := 100, price_history := [],
      alerting := false, stop_alerting := false, monitoring_paused := false }
    [(100, 103), (100, 103), (100, 103)]
    (by
      intro x hx
      simp only [List.mem_cons, List.not_mem_nil, or_false] at hx
      rcases hx with rfl | rfl | rfl <;>
        norm_num [calculate_spread_pct])

/-! ### Lemmas for the dead mute-registry claim (C10) -/

theorem check_volatility_registry (m : VolMonitor) (now : ℚ) (p : Option ℚ) :
    (check_volatility m now p).1.alert_registry = m.alert_registry := by
  unfold check_volatility
  split
  · rfl
  · split
    · rfl
    · dsimp only
      split
      · rfl
      · split_ifs <;> rfl

theorem volatility_alert_step_registry (m : VolMonitor) (now : ℚ)
    (p : Option ℚ) :
    (volatility_alert_step m now p).1.alert_registry = m.alert_registry := by
  unfold volatility_alert_step
  split
  · rfl
  · split
    · rfl
    · dsimp only
      split
      · rfl
      · split_ifs <;> rfl

theorem vol_apply_registry (m : VolMonitor) (e : VolEvent) :
    (vol_apply m e).alert_registry = m.alert_registry := by
  cases e with
  | check now p => exact check_volatility_registry m now p
  | renotify now p => exact volatility_alert_step_registry m now p
  | pauseCmd => rfl
  | continueCmd => rfl

theorem vol_run_registry :
    ∀ (es : List VolEvent) (m : VolMonitor),
      (vol_run m es).alert_registry = m.alert_registry := by
  intro es
  induction es with
  | nil => intro m; rfl
  | cons e rest ih =>
    intro m
    exact (ih (vol_apply m e)).trans (vol_apply_registry m e)

theorem volatility_alert_step_not_muted (m : VolMonitor) (now : ℚ)
    (p : Option ℚ) (h : m.alert_registry = none) :
    (volatility_alert_step m now p).2 ≠ .skippedMuted := by
  unfold volatility_alert_step
  split
  · simp
  · split
    · simp
    · dsimp only
      split
      · simp
      · split_ifs <;> simp_all [registry_is_muted]

theorem check_iv_registry (m : IVMonitor) (now : ℚ) (v b : Option ℚ) :
    (check_iv m now v b).1.alert_registry = m.alert_registry := by
  unfold check_iv
  split
  · rfl
  · split
    · rfl
    · dsimp only
      split_ifs <;> rfl

theorem iv_alert_step_registry (m : IVMonitor) (now : ℚ) (v b : Option ℚ) :
    (iv_alert_step m now v b).1.alert_registry = m.alert_registry := by
  unfold iv_alert_step
  split
  · rfl
  · split
    · rfl
    · dsimp only
      split_ifs <;> rfl

theorem iv_apply_registry (m : IVMonitor) (e : IVEvent) :
    (iv_apply m e).alert_registry = m.alert_registry := by
  cases e with
  | check now v b => exact check_iv_registry m now v b
  | renotify now v b => exact iv_alert_step_registry m now v b

theorem iv_run_registry :
    ∀ (es : List IVEvent) (m : IVMonitor),
      (iv_run m es).alert_registry = m.alert_registry := by
  intro es
  induction es with
  | nil => intro m; rfl
  | cons e rest ih =>
    intro m
    exact (ih (iv_apply m e)).trans (iv_apply_registry m e)

theorem iv_alert_step_not_muted (m : IVMonitor) (now : ℚ) (v b : Option ℚ)
    (h : m.alert_registry = none) :
    (iv_alert_step m now v b).2 ≠ .skippedMuted := by
  unfold iv_alert_step
  split
  · simp
  · split
    · simp
    · dsimp only
      split_ifs <;> simp_all [registry_is_muted]

/-- C10: `alert_registry` is `None` at construction and no operation in the
codebase (poll ticks, renotify iterations, or the Telegram controller's
pause/continue handlers) ever assigns it, so in every reachable state of the
volatility and DVOL monitors the registry is still `None` and the
`alert_registry.is_muted(alert_id)` branch of the renotify loops can never
fire — a renotify iteration never skips its send as muted. -/
theorem C10_mute_registry_unreachable :
    (∀ (w t : ℚ) (es : List VolEvent),
        (vol_run (vol_init w t) es).alert_registry = none) ∧
    (∀ (w t : ℚ) (es : List VolEvent) (now : ℚ) (p : Option ℚ),
        (volatility_alert_step (vol_run (vol_init w t) es) now p).2 ≠
          .skippedMuted) ∧
    (∀ (w t b : ℚ) (es : List IVEvent),
        (iv_run (iv_init w t b) es).alert_registry = none) ∧
    (∀ (w t b : ℚ) (es : List IVEvent) (now : ℚ) (iv btc : Option ℚ),
        (iv_alert_step (iv_run (iv_init w t b) es) now iv btc).2 ≠
          .skippedMuted) := by
  refine ⟨?_, ?_, ?_, ?_⟩
  · intro w t es
    exact (vol_run_registry es (vol_init w t)).trans rfl
  · intro w t es now p
    exact volatility_alert_step_not_muted _ now p
      ((vol_run_registry es (vol_init w t)).trans rfl)
  · intro w t b es
    exact (iv_run_registry es (iv_init w t b)).trans rfl
  · intro w t b es now iv btc
    exact iv_alert_step_not_muted _ now iv btc
      ((iv_run_registry es (iv_init w t b)).trans rfl)

end BackpackMonitor
